import Mathlib

/-!
Shallow embedding of the SmartInterview backend interview-flow decision
engine, translated from `backend/services/ai_question_service.py` and
`backend/routes/public.py`.  Machine integers are modelled as `Int` (Python
ints are unbounded), dictionaries with optional keys as structures of
`Option` fields, and raised exceptions as `Except`.
-/

namespace SmartInterview

/-- A preset interview question, from `models.interview.Question` as used by
the service: `text`, `tags`, `generated_by`, and the optional
`suggested_time_seconds` attribute (absent on old rows, hence `Option`). -/
structure Question where
  text : String
  tags : List String
  generatedBy : String
  suggestedTimeSeconds : Option Int
  deriving Repr, DecidableEq

/-- Python expression `getattr(q, "suggested_time_seconds", 120) or 120`: a missing value and
a falsy (zero) value both yield the default 120. -/
def effectiveTime (q : Question) : Int :=
  match q.suggestedTimeSeconds with
  | none => 120
  | some t => if t = 0 then 120 else t

/-- The raw decision dictionary returned by an LLM backend:
`{action?, question_text?, suggested_time_seconds?}`, every key optional
(`decision.get(...)`). -/
structure DecisionPayload where
  action : Option String
  questionText : Option String
  suggestedTimeSeconds : Option Int
  deriving Repr, DecidableEq

/-- The `next_step` dictionary produced by the decision functions:
`{action, question_text?, next_index?, suggested_time_seconds?}`. -/
structure NextStep where
  action : String
  questionText : Option String
  nextIndex : Option Nat
  suggestedTimeSeconds : Option Int
  deriving Repr, DecidableEq

/-- The `{"action": "complete"}` dictionary. -/
def completeStep : NextStep := ⟨"complete", none, none, none⟩

/-- Python truthiness of an optional string: `if s:` is false for `None`
and for the empty string. -/
def truthy (o : Option String) : Bool :=
  o.getD "" ≠ ""

/-- Method `AIQuestionService._get_next_preset_or_complete`: return the next preset
question action, or complete if all presets are done. -/
def getNextPresetOrComplete (questions : List Question) (currentQuestionIndex : Nat) :
    NextStep :=
  let next := currentQuestionIndex + 1
  if h : next < questions.length then
    let q := questions.get ⟨next, h⟩
    ⟨"preset", some q.text, some (next + 1), some (effectiveTime q)⟩
  else
    completeStep

/-- The shared preset tail of `_process_llm_decision` (lines 529-549): the
`if action == "preset"` block, reached either with the original action
`"preset"` or after a text-less `follow_up`/`resume` was reassigned to
`"preset"`.  The inner `if question_text and action in ("follow_up","resume")`
branch is unreachable there (action is `"preset"` at that point), so the
else-arm returns `{"action": "complete"}`. -/
def processPresetTail (questions : List Question) (currentQuestionIndex : Nat)
    (questionText : String) (suggestedTime : Int) : NextStep :=
  let next := currentQuestionIndex + 1
  if h : next < questions.length then
    ⟨"preset",
      some (if questionText ≠ "" then questionText else (questions.get ⟨next, h⟩).text),
      some (next + 1), some suggestedTime⟩
  else
    completeStep

/-- Method `AIQuestionService._process_llm_decision` (the OpenRouter path):
`action = decision.get("action", "preset")`, `question_text =
decision.get("question_text", "")`, `suggested_time =
decision.get("suggested_time_seconds", 120)` clamped to `[30, 180]` and then
capped to `remaining_seconds` only when `remaining_seconds > 0`.
`"complete"` is returned unconditionally; `follow_up`/`resume` with text is
returned as-is; otherwise the preset tail runs; any unknown action falls to
the final `return {"action": "complete"}`. -/
def processLLMDecision (decision : DecisionPayload) (questions : List Question)
    (currentQuestionIndex : Nat) (remainingSeconds : Int) : NextStep :=
  let action := decision.action.getD "preset"
  let questionText := decision.questionText.getD ""
  let clamped := max 30 (min 180 (decision.suggestedTimeSeconds.getD 120))
  let suggestedTime := if 0 < remainingSeconds then min clamped remainingSeconds else clamped
  if action = "complete" then
    completeStep
  else if action = "follow_up" ∨ action = "resume" then
    if questionText ≠ "" then
      ⟨action, some questionText, none, some suggestedTime⟩
    else
      processPresetTail questions currentQuestionIndex questionText suggestedTime
  else if action = "preset" then
    processPresetTail questions currentQuestionIndex questionText suggestedTime
  else
    completeStep

/-- The decision-processing tail of
`AIQuestionService._determine_next_step_with_gemini` (lines 611-661), after
the JSON payload has been parsed: `"preset"` advances (or completes when no
preset remains), `"follow_up"`/`"resume"` with text keeps the cursor and
clamps the time (default 90) to `[30, 180]` capped to the remaining budget
when positive, `"complete"` with presets remaining is forced to the next
preset, and anything else falls back to `_get_next_preset_or_complete`. -/
def geminiProcessDecision (decision : DecisionPayload) (questions : List Question)
    (currentQuestionIndex : Nat) (elapsedSeconds timeLimitSeconds : Int) : NextStep :=
  let next := currentQuestionIndex + 1
  match decision.action with
  | some "preset" =>
      if h : next < questions.length then
        let q := questions.get ⟨next, h⟩
        ⟨"preset", some q.text, some (next + 1), some (effectiveTime q)⟩
      else
        completeStep
  | some a =>
      if a = "follow_up" ∨ a = "resume" then
        if truthy decision.questionText then
          let clamped := max 30 (min 180 (decision.suggestedTimeSeconds.getD 90))
          let rem := max 0 (timeLimitSeconds - elapsedSeconds)
          let t := if 0 < rem then min clamped rem else clamped
          ⟨a, decision.questionText, some (currentQuestionIndex + 1), some t⟩
        else
          getNextPresetOrComplete questions currentQuestionIndex
      else if a = "complete" then
        if next < questions.length then
          getNextPresetOrComplete questions currentQuestionIndex
        else
          completeStep
      else
        getNextPresetOrComplete questions currentQuestionIndex
  | none => getNextPresetOrComplete questions currentQuestionIndex

/-- The decision-processing tail of
`AIQuestionService._determine_next_step_with_groq` (lines 734-770):
`follow_up`/`resume` with text keeps the cursor (time default 90, clamped
then capped to the remaining budget when positive); `"preset"` with a preset
remaining advances; `"complete"` with no preset remaining completes;
everything else falls back to `_get_next_preset_or_complete`. -/
def groqProcessDecision (decision : DecisionPayload) (questions : List Question)
    (currentQuestionIndex : Nat) (elapsedSeconds timeLimitSeconds : Int) : NextStep :=
  let next := currentQuestionIndex + 1
  let hasRemaining := next < questions.length
  if ((decision.action = some "follow_up" ∨ decision.action = some "resume") ∧
      truthy decision.questionText) then
    let clamped := max 30 (min 180 (decision.suggestedTimeSeconds.getD 90))
    let rem := max 0 (timeLimitSeconds - elapsedSeconds)
    let t := if 0 < rem then min clamped rem else clamped
    ⟨decision.action.getD "", decision.questionText, some (currentQuestionIndex + 1), some t⟩
  else if hDec : decision.action = some "preset" ∧ next < questions.length then
    let q := questions.get ⟨next, hDec.2⟩
    ⟨"preset", some q.text, some (next + 1), some (effectiveTime q)⟩
  else if decision.action = some "complete" ∧ ¬hasRemaining then
    completeStep
  else
    getNextPresetOrComplete questions currentQuestionIndex

/-- The final fallback of `AIQuestionService.determine_next_step`
(lines 485-499), reached when every LLM backend failed: move to the next
preset question with `suggested_time = min(120, remaining_seconds)` when
time remains (else 120), or complete when no preset remains. -/
def determineNextStepAllFailed (questions : List Question) (currentQuestionIndex : Nat)
    (elapsedSeconds timeLimitSeconds : Int) : NextStep :=
  let next := currentQuestionIndex + 1
  let rem := max 0 (timeLimitSeconds - elapsedSeconds)
  let suggestedTime := if 0 < rem then min 120 rem else (120 : Int)
  if h : next < questions.length then
    ⟨"preset", some ((questions.get ⟨next, h⟩).text), some (next + 1), some suggestedTime⟩
  else
    completeStep

/-! ## Time budget computation (`_build_llm_prompt`, lines 827-872) -/

/-- Computes `remaining_seconds = max(0, time_limit_seconds - elapsed_seconds)`. -/
def remainingSecondsOf (elapsedSeconds timeLimitSeconds : Int) : Int :=
  max 0 (timeLimitSeconds - elapsedSeconds)

/-- The `time_urgency` string computed in `_build_llm_prompt`
(lines 865-872), with the exact source strings. -/
def timeUrgencyMsg (remainingSeconds : Int) : String :=
  if remainingSeconds < 60 then
    "CRITICAL - Less than 1 minute left! Complete immediately or ask one final question."
  else if remainingSeconds < 120 then
    "URGENT - Less than 2 minutes left. Wrap up quickly."
  else if remainingSeconds < 180 then
    "LIMITED - About 3 minutes left. Be efficient."
  else
    "NORMAL - Good amount of time remaining."

/-- The `max_follow_ups_per_preset` chain of `_build_llm_prompt`
(lines 853-860), with its four branches kept as in the source. -/
def maxFollowUpsPerPreset (remainingSeconds remainingPresets : Int) : Nat :=
  if remainingSeconds < 60 then 0
  else if remainingSeconds < 120 then 0
  else if 0 < remainingPresets then 1
  else 1

/-- Computes `has_time_for_followup = remaining_seconds > (remaining_presets * 60 + 30)`
(line 850). -/
def hasTimeForFollowup (remainingSeconds remainingPresets : Int) : Bool :=
  remainingSeconds > remainingPresets * 60 + 30

/-- Computes `follow_up_count = total_questions_asked - preset_count` where
`preset_count = current_question_index + 1` (lines 823-825): the
prompt-level approximation of how many follow-ups were asked. -/
def followUpCount (historyLength : Nat) (currentQuestionIndex : Nat) : Int :=
  (historyLength : Int) - ((currentQuestionIndex : Int) + 1)

/-- Urgency tiers as named by the specification. -/
inductive UrgencyTier
  | critical
  | urgent
  | limited
  | normal
  deriving Repr, DecidableEq

/-- Modelled from the spec words (for comparison with `timeUrgencyMsg`):
CRITICAL if `remaining < 60`, URGENT if `< 120`, LIMITED if `< 180`,
else NORMAL. -/
def urgencyTierSpec (remainingSeconds : Int) : UrgencyTier :=
  if remainingSeconds < 60 then .critical
  else if remainingSeconds < 120 then .urgent
  else if remainingSeconds < 180 then .limited
  else .normal

/-- The label of an urgency tier as it appears at the front of the source
`time_urgency` string. -/
def urgencyLabel : UrgencyTier → String
  | .critical => "CRITICAL"
  | .urgent => "URGENT"
  | .limited => "LIMITED"
  | .normal => "NORMAL"

/-! ## Session routes (`backend/routes/public.py`) -/

/-- An interview session row, with the fields the public routes touch:
`status`, `current_question` (the persisted preset cursor),
`start_time`/`end_time`, `candidate_id`, `updated_at`.  Timestamps are
abstracted to `Nat` ticks. -/
structure Session where
  status : String
  currentQuestion : Nat
  startTime : Option Nat
  endTime : Option Nat
  candidateId : Option Nat
  updatedAt : Option Nat
  deriving Repr, DecidableEq

/-- Route `start_interview_session` (lines 147-170): 400 when no candidate is
registered; otherwise unconditionally set `status = "in_progress"`,
`start_time = now`, `current_question = 0` — the stored status is never
inspected. -/
def startInterviewSession (s : Session) (now : Nat) : Except String Session :=
  if s.candidateId.isNone then
    Except.error "No candidate registered for this session"
  else
    Except.ok { s with status := "in_progress", startTime := some now,
                       currentQuestion := 0, updatedAt := some now }

/-- Route `complete_session` (lines 417-449) on an existing session: an
already-completed session returns success untouched; a session that is not
`in_progress` is rejected with 400; otherwise status, `end_time` and
`updated_at` are written. -/
def completeSession (s : Session) (now : Nat) : Except String Session :=
  if s.status = "completed" then
    Except.ok s
  else if s.status ≠ "in_progress" then
    Except.error "Session cannot be completed from this state"
  else
    Except.ok { s with status := "completed", endTime := some now, updatedAt := some now }

/-- The status guard at the top of `submit_response` (lines 211-212):
submitting is rejected unless the session is `in_progress`. -/
def submitResponseGuard (s : Session) : Except String Unit :=
  if s.status ≠ "in_progress" then
    Except.error "Session is not in progress"
  else
    Except.ok ()

/-- The cursor update of `submit_response` (lines 389-395): the session field
`current_question` is overwritten with the `next_index` of the decision exactly
when the action is `"preset"` and a `next_index` is present; no other
action touches the cursor. -/
def applyDecisionCursor (s : Session) (step : NextStep) (now : Nat) : Session :=
  if step.action = "preset" then
    match step.nextIndex with
    | some n => { s with currentQuestion := n, updatedAt := some now }
    | none => s
  else
    s

/-! ## Transcript selection (`submit_response`, lines 224-296) -/

/-- The transcript chosen by `submit_response`.  `live` is the optional
client-supplied `live_transcript` form field; `serverText` is
`transcription_result.get("text", "")`; `audioError` is true when any
exception was raised while saving or transcribing the audio (in which case
only the live transcript is consulted).  Mirrors the source control flow:
the live transcript wins when truthy with stripped length above 5;
otherwise the server text is used when truthy, not starting with `[`, and
of stripped length above 5; otherwise the literal placeholder is stored. -/
def computeTranscript (live : Option String) (serverText : String)
    (audioError : Bool) : String :=
  let liveBranch : Option String :=
    match live with
    | some s => if s ≠ "" ∧ 5 < s.trim.length then some s.trim else none
    | none => none
  if audioError then
    match liveBranch with
    | some t => t
    | none => "[No response recorded]"
  else
    match liveBranch with
    | some t => t
    | none =>
        if serverText ≠ "" ∧ ¬serverText.startsWith "[" ∧ 5 < serverText.trim.length then
          serverText
        else
          "[No response recorded]"

/-! ## QuestionBank: `generate_questions` and its template fallbacks -/

/-- One parsed item of the JSON list returned by an LLM for initial question
generation: each key optional (`q_data.get(...)` / `"key" in q_data`). -/
structure RawQuestionData where
  text : Option String
  tags : Option (List String)
  suggestedTimeSeconds : Option Int
  deriving Repr, DecidableEq

/-- The `self.template_questions` table of `AIQuestionService.__init__`,
keyed by focus area and difficulty; unknown keys yield the empty list (the
`in`/`get` guards of `_generate_focus_area_questions`). -/
def templateQuestions (area difficulty : String) : List String :=
  match area, difficulty with
  | "communication", "easy" =>
      ["Can you tell me about yourself?",
       "What are your strengths and weaknesses?",
       "Why are you interested in this position?",
       "Where do you see yourself in 5 years?",
       "Describe a challenging situation you faced at work."]
  | "communication", "medium" =>
      ["How do you handle constructive criticism?",
       "Tell me about a time you had to explain a complex concept to someone.",
       "How do you prioritize your work when you have multiple deadlines?",
       "Describe a situation where you had to work with a difficult colleague.",
       "How do you stay motivated during challenging projects?"]
  | "communication", "hard" =>
      ["How would you handle a situation where your manager disagrees with your approach?",
       "Describe a time when you had to influence stakeholders without direct authority.",
       "How do you handle situations where you need to deliver bad news?",
       "Tell me about a time you had to resolve a conflict between team members.",
       "How do you ensure effective communication in a remote team setting?"]
  | "technical", "easy" =>
      ["What programming languages are you most comfortable with?",
       "Can you explain the difference between frontend and backend development?",
       "What is version control and why is it important?",
       "Describe a simple project you\x27ve worked on.",
       "What tools do you use for debugging?"]
  | "technical", "medium" =>
      ["Explain the concept of RESTful APIs.",
       "How would you optimize a slow-performing database query?",
       "Describe your experience with testing methodologies.",
       "How do you handle security in your applications?",
       "Explain the difference between synchronous and asynchronous operations."]
  | "technical", "hard" =>
      ["How would you design a scalable microservices architecture?",
       "Explain how you would implement a caching strategy for a high-traffic application.",
       "Describe your approach to handling distributed system failures.",
       "How would you design a system to handle millions of concurrent users?",
       "Explain your strategy for database sharding and partitioning."]
  | "overall", "easy" =>
      ["What motivates you in your work?",
       "How do you handle stress and pressure?",
       "What do you do to stay updated with industry trends?",
       "How do you approach learning new technologies?",
       "What\x27s your preferred work environment?"]
  | "overall", "medium" =>
      ["How do you balance quality with speed in your work?",
       "Describe your ideal team dynamic.",
       "How do you handle ambiguity in project requirements?",
       "What\x27s your approach to mentoring junior developers?",
       "How do you measure success in your projects?"]
  | "overall", "hard" =>
      ["How would you lead a team through a major technical transition?",
       "Describe your strategy for managing technical debt.",
       "How do you approach making architectural decisions?",
       "What\x27s your philosophy on code quality vs. delivery speed?",
       "How would you handle a situation where business requirements conflict with technical best practices?"]
  | _, _ => []

/-- The five generic texts of `_generate_fallback_questions`. -/
def fallbackTexts : List String :=
  ["Tell me about your experience related to this role.",
   "What challenges do you anticipate in this position?",
   "How do you typically approach problem-solving?",
   "What are your long-term career aspirations?",
   "How do you respond to constructive feedback?"]

/-- Models `random.sample(pool, min(k, len(pool)))`: the source always
samples with `min(count, len(pool))` elements, without replacement, so the
result has exactly `min k pool.length` distinct elements of the pool; which
elements are drawn is irrelevant to the counting claims verified here, so
the draw is modelled as the initial segment. -/
def sampleK (pool : List String) (k : Nat) : List String :=
  pool.take k

/-- Method `_generate_focus_area_questions`: sample up to `count` texts from the
template pool for the given area and difficulty. -/
def generateFocusAreaQuestions (area difficulty : String) (count : Nat) : List String :=
  sampleK (templateQuestions area difficulty) count

/-- Method `_generate_fallback_questions`: sample up to `count` of the five generic
texts, tagged with the focus areas and provenance `"fallback"`
(`suggested_time_seconds` left at the model default 120). -/
def generateFallbackQuestions (focusAreas : List String) (count : Nat) : List Question :=
  (sampleK fallbackTexts count).map fun t => ⟨t, focusAreas, "fallback", some 120⟩

/-- Method `_generate_template_questions` (lines 359-386): split the request over
the focus areas (`n / len(areas) + 1` per area, or `n` when the area list
is empty), trim to `n`, and top up from the generic fallback texts when
short. -/
def generateTemplateQuestions (focusAreas : List String) (difficulty : String)
    (n : Nat) : List Question :=
  let qPerArea := if focusAreas = [] then n else n / focusAreas.length + 1
  let questions := focusAreas.flatMap fun area =>
    (generateFocusAreaQuestions area difficulty qPerArea).map
      fun t => (⟨t, [area], "template", some 120⟩ : Question)
  let finalQuestions := questions.take n
  let withFallback :=
    if finalQuestions.length < n then
      finalQuestions ++ generateFallbackQuestions focusAreas (n - finalQuestions.length)
    else
      finalQuestions
  withFallback.take n

/-- The Gemini branch of `generate_questions` (lines 191-209): keep items
carrying both a `text` and a `tags` key, clamp the suggested time to
`[60, 180]` (default 120), provenance `"ai"`. -/
def parseGeminiQuestions (items : List RawQuestionData) : List Question :=
  items.filterMap fun q =>
    match q.text, q.tags with
    | some t, some tags =>
        some ⟨t, tags, "ai", some (max 60 (min 180 (q.suggestedTimeSeconds.getD 120)))⟩
    | _, _ => none

/-- The Groq branch (`_generate_questions_with_groq`, lines 276-290): keep
items carrying a `text` key, defaulting tags to the first focus area (or
`"general"`), clamp the suggested time to `[60, 180]` (default 120),
provenance `"ai"`. -/
def parseGroqQuestions (items : List RawQuestionData) (focusAreas : List String) :
    List Question :=
  items.filterMap fun q =>
    match q.text with
    | some t =>
        let tags := q.tags.getD (if focusAreas = [] then ["general"] else focusAreas.take 1)
        some ⟨t, tags, "ai", some (max 60 (min 180 (q.suggestedTimeSeconds.getD 120)))⟩
    | none => none

/-- Method `AIQuestionService.generate_questions` (lines 138-234).  `geminiItems`
is the parsed `questions` list of a successful Gemini call (`none` when the
call raised, returned invalid JSON, or Gemini is unavailable), and likewise
`groqItems` for Groq.  A provider whose parsed list is non-empty wins and
its list is truncated to `n`; an empty parsed list falls through to the
next provider; when both providers yield nothing, the template fallback
runs. -/
def generateQuestions (geminiItems groqItems : Option (List RawQuestionData))
    (focusAreas : List String) (difficulty : String) (n : Nat) : List Question :=
  let geminiOutcome : Option (List Question) :=
    match geminiItems with
    | some items =>
        let qs := parseGeminiQuestions items
        if qs = [] then none else some (qs.take n)
    | none => none
  match geminiOutcome with
  | some qs => qs
  | none =>
      let groqOutcome : Option (List Question) :=
        match groqItems with
        | some items =>
            let qs := parseGroqQuestions items focusAreas
            if qs = [] then none else some (qs.take n)
        | none => none
      match groqOutcome with
      | some qs => qs
      | none => generateTemplateQuestions focusAreas difficulty n

/-! ## Fixtures -/

/-- A three-question interview fixture; the second preset stores a
180-second suggested duration and the third 90 seconds. -/
def threeQuestions : List Question :=
  [⟨"Q1", ["technical"], "manual", some 120⟩,
   ⟨"Q2", ["technical"], "manual", some 180⟩,
   ⟨"Q3", ["technical"], "manual", some 90⟩]

/-! ## Helper lemmas -/

/-- On the `_get_next_preset_or_complete` helper, a `"preset"` outcome
always carries `next_index = current_question_index + 2` (the 1-based index
of the question after the one being served), bounded by the preset count. -/
theorem presetIndex_getNextPresetOrComplete (qs : List Question) (idx : Nat)
    (h : (getNextPresetOrComplete qs idx).action = "preset") :
    (getNextPresetOrComplete qs idx).nextIndex = some (idx + 2) ∧
      idx + 2 ≤ qs.length := by
  by_cases hlt : idx + 1 < qs.length
  · refine ⟨?_, by omega⟩
    simp [getNextPresetOrComplete, hlt]
  · exfalso
    simp [getNextPresetOrComplete, hlt, completeStep] at h

/-- Same bound for the preset tail of `_process_llm_decision`. -/
theorem presetIndex_processPresetTail (qs : List Question) (idx : Nat)
    (qt : String) (st : Int)
    (h : (processPresetTail qs idx qt st).action = "preset") :
    (processPresetTail qs idx qt st).nextIndex = some (idx + 2) ∧
      idx + 2 ≤ qs.length := by
  by_cases hlt : idx + 1 < qs.length
  · refine ⟨?_, by omega⟩
    simp [processPresetTail, hlt]
  · exfalso
    simp [processPresetTail, hlt, completeStep] at h

/-- On `_process_llm_decision`, a `"preset"` outcome always carries
`next_index = current_question_index + 2`, bounded by the preset count. -/
theorem presetIndex_processLLMDecision (payload : DecisionPayload)
    (qs : List Question) (idx : Nat) (rem : Int)
    (h : (processLLMDecision payload qs idx rem).action = "preset") :
    (processLLMDecision payload qs idx rem).nextIndex = some (idx + 2) ∧
      idx + 2 ≤ qs.length := by
  by_cases h1 : payload.action.getD "preset" = "complete"
  · simp [processLLMDecision, h1, completeStep] at h
  · by_cases h2 : payload.action.getD "preset" = "follow_up" ∨
        payload.action.getD "preset" = "resume"
    · by_cases h3 : payload.questionText.getD "" = ""
      · simp [processLLMDecision, h1, h2, h3] at h ⊢
        exact presetIndex_processPresetTail _ _ _ _ h
      · simp [processLLMDecision, h1, h2, h3] at h
        rcases h2 with h2 | h2 <;> rw [h2] at h <;> exact absurd h (by decide)
    · by_cases h4 : payload.action.getD "preset" = "preset"
      · simp [processLLMDecision, h1, h2, h4] at h ⊢
        exact presetIndex_processPresetTail _ _ _ _ h
      · simp [processLLMDecision, h1, h2, h4, completeStep] at h

/-- On the Gemini decision path, a `"preset"` outcome always carries
`next_index = current_question_index + 2`, bounded by the preset count. -/
theorem presetIndex_geminiProcessDecision (payload : DecisionPayload)
    (qs : List Question) (idx : Nat) (e tl : Int) :
    (geminiProcessDecision payload qs idx e tl).action = "preset" →
    (geminiProcessDecision payload qs idx e tl).nextIndex = some (idx + 2) ∧
      idx + 2 ≤ qs.length := by
  unfold geminiProcessDecision
  split
  · dsimp only
    split
    · intro _
      exact ⟨rfl, by omega⟩
    · intro h
      exact absurd h (by decide)
  · rename_i s hne heq
    dsimp only
    split
    · split
      · intro h
        exact absurd h hne
      · exact presetIndex_getNextPresetOrComplete qs idx
    · split
      · split
        · exact presetIndex_getNextPresetOrComplete qs idx
        · intro h
          exact absurd h (by decide)
      · exact presetIndex_getNextPresetOrComplete qs idx
  · exact presetIndex_getNextPresetOrComplete qs idx

/-- On the Groq decision path, a `"preset"` outcome always carries
`next_index = current_question_index + 2`, bounded by the preset count. -/
theorem presetIndex_groqProcessDecision (payload : DecisionPayload)
    (qs : List Question) (idx : Nat) (e tl : Int) :
    (groqProcessDecision payload qs idx e tl).action = "preset" →
    (groqProcessDecision payload qs idx e tl).nextIndex = some (idx + 2) ∧
      idx + 2 ≤ qs.length := by
  unfold groqProcessDecision
  dsimp only
  split
  · rename_i hcond
    intro h
    rcases hcond.1 with ha | ha <;> rw [ha] at h <;> simp at h
  · split
    · rename_i hDec
      intro _
      obtain ⟨-, h2⟩ := hDec
      exact ⟨rfl, by omega⟩
    · split
      · intro h
        exact absurd h (by decide)
      · exact presetIndex_getNextPresetOrComplete qs idx

/-- On the total-failure fallback of `determine_next_step`, a `"preset"`
outcome always carries `next_index = current_question_index + 2`, bounded
by the preset count. -/
theorem presetIndex_determineNextStepAllFailed (qs : List Question) (idx : Nat)
    (e tl : Int) :
    (determineNextStepAllFailed qs idx e tl).action = "preset" →
    (determineNextStepAllFailed qs idx e tl).nextIndex = some (idx + 2) ∧
      idx + 2 ≤ qs.length := by
  unfold determineNextStepAllFailed
  dsimp only
  split
  · intro _
    exact ⟨rfl, by omega⟩
  · intro h
    exact absurd h (by decide)

/-! ## Claim theorems -/

/-- Claim C1 (code bug): on the OpenRouter path, `_process_llm_decision`
returns a `Complete` decision for an `action = "complete"` payload even
while unfinished preset questions remain
(`current_question_index + 1 < len(questions)`), whereas the Gemini and
Groq paths override the very same payload to the rule-4 preset fallback —
the no-premature-completion invariant does not hold on every provider
path. -/
theorem C1_premature_complete_on_process_llm_decision :
    processLLMDecision ⟨some "complete", none, none⟩ threeQuestions 0 600 = completeStep ∧
    0 + 1 < threeQuestions.length ∧
    geminiProcessDecision ⟨some "complete", none, none⟩ threeQuestions 0 0 600 =
      getNextPresetOrComplete threeQuestions 0 ∧
    groqProcessDecision ⟨some "complete", none, none⟩ threeQuestions 0 0 600 =
      getNextPresetOrComplete threeQuestions 0 ∧
    (getNextPresetOrComplete threeQuestions 0).action = "preset" := by decide

/-- Claim C5 (code bug): on the OpenRouter path, `_process_llm_decision`
maps an unknown action label (here `"chat"`) to the final
`return {"action": "complete"}` even while unfinished presets remain,
instead of the rule-4 preset fallback; the Gemini and Groq paths, and the
absent-payload total-failure fallback, do fall back to rule 4. -/
theorem C5_unknown_action_completes_on_process_llm_decision :
    processLLMDecision ⟨some "chat", some "hello", some 90⟩ threeQuestions 0 600 =
      completeStep ∧
    0 + 1 < threeQuestions.length ∧
    geminiProcessDecision ⟨some "chat", some "hello", some 90⟩ threeQuestions 0 0 600 =
      getNextPresetOrComplete threeQuestions 0 ∧
    groqProcessDecision ⟨some "chat", some "hello", some 90⟩ threeQuestions 0 0 600 =
      getNextPresetOrComplete threeQuestions 0 ∧
    (getNextPresetOrComplete threeQuestions 0).action = "preset" ∧
    determineNextStepAllFailed threeQuestions 0 0 600 =
      ⟨"preset", some "Q2", some 2, some 120⟩ := by decide

/-- Claim C6 counterexample: on total backend failure, the fallback of
`determine_next_step` does not carry the stored suggested duration of the next preset
duration (180 seconds for `Q2` here, as `_get_next_preset_or_complete`
would) — it returns `min(120, remaining_seconds)` instead. -/
theorem C6_counterexample_stored_duration_ignored :
    (determineNextStepAllFailed threeQuestions 0 0 600).suggestedTimeSeconds = some 120 ∧
    effectiveTime (threeQuestions.get ⟨1, by decide⟩) = 180 ∧
    (getNextPresetOrComplete threeQuestions 0).suggestedTimeSeconds = some 180 := by decide

/-- Claim C6 (amended): when every reasoning backend fails,
`determine_next_step` returns — without raising — the preset fallback:
`Advance` carrying the text of the next preset, the 1-based `next_index`, and
`suggested_time = min(120, remaining)` when time remains (else 120) while
presets remain, and `Complete` when none remain; the outcome is a pure
function of the inputs. -/
theorem C6_total_failure_fallback (qs : List Question) (idx : Nat) (e tl : Int)
    (h : idx + 1 < qs.length) :
    determineNextStepAllFailed qs idx e tl =
      ⟨"preset", some ((qs.get ⟨idx + 1, h⟩).text), some (idx + 2),
        some (if 0 < max 0 (tl - e) then min 120 (max 0 (tl - e)) else 120)⟩ ∧
    (∀ qs' : List Question, ∀ idx' : Nat, ¬(idx' + 1 < qs'.length) →
      determineNextStepAllFailed qs' idx' e tl = completeStep) := by
  constructor
  · simp [determineNextStepAllFailed, h]
  · intro qs' idx' h'
    simp [determineNextStepAllFailed, h', completeStep]

/-- Witness for C6: the fallback evaluated on the three-question fixture. -/
theorem C6_total_failure_fallback_witness :
    determineNextStepAllFailed threeQuestions 0 0 600 =
      ⟨"preset", some ((threeQuestions.get ⟨0 + 1, by decide⟩).text), some (0 + 2),
        some (if (0 : Int) < max 0 (600 - 0) then min 120 (max 0 (600 - 0)) else 120)⟩ :=
  (C6_total_failure_fallback threeQuestions 0 0 600 (by decide)).1

/-- Claim C4 counterexample: with the time budget exhausted
(`remaining_budget = 0`), a follow-up payload asking for 120 seconds is
emitted with `suggested_time_seconds = 120` — the cap to the remaining
budget is skipped (the source caps only when `remaining_seconds > 0`), so
the output is not within `[30, min(180, remaining_budget)]`; the Gemini
path behaves the same. -/
theorem C4_counterexample_no_cap_when_budget_exhausted :
    (processLLMDecision ⟨some "follow_up", some "Tell me more about that.", some 120⟩
        threeQuestions 0 0).suggestedTimeSeconds = some 120 ∧
    ¬((120 : Int) ≤ min 180 0) ∧
    (geminiProcessDecision ⟨some "follow_up", some "Tell me more about that.", some 120⟩
        threeQuestions 0 600 600).suggestedTimeSeconds = some 120 := by decide

/-- Claim C4 (amended): for every `FollowUp`/`ResumeProbe` decision built
from a backend payload, the suggested time is the backend value clamped to
`[30, 180]` and then capped to the remaining budget only when that budget
is positive: it lies in `[30, min(180, remaining)]` whenever
`remaining ≥ 30`; it equals `remaining` when `0 < remaining < 30`; and
when `remaining ≤ 0` it is the uncapped clamp in `[30, 180]` (the same
holds on the Gemini path with its remaining budget
`max(0, time_limit - elapsed)`). -/
theorem C4_time_clamp_amended (payload : DecisionPayload) (qs : List Question)
    (idx : Nat) (rem e tl : Int) (a : String)
    (hA : payload.action = some a) (hFU : a = "follow_up" ∨ a = "resume")
    (hText : payload.questionText.getD "" ≠ "") :
    (∃ t : Int, (processLLMDecision payload qs idx rem).suggestedTimeSeconds = some t ∧
      (30 ≤ rem → 30 ≤ t ∧ t ≤ 180 ∧ t ≤ rem) ∧
      (0 < rem → rem < 30 → t = rem) ∧
      (rem ≤ 0 → 30 ≤ t ∧ t ≤ 180)) ∧
    (∃ t : Int, (geminiProcessDecision payload qs idx e tl).suggestedTimeSeconds = some t ∧
      (30 ≤ max 0 (tl - e) → 30 ≤ t ∧ t ≤ 180 ∧ t ≤ max 0 (tl - e)) ∧
      (0 < max 0 (tl - e) → max 0 (tl - e) < 30 → t = max 0 (tl - e)) ∧
      (max 0 (tl - e) ≤ 0 → 30 ≤ t ∧ t ≤ 180)) := by
  constructor
  · refine ⟨if 0 < rem then min (max 30 (min 180 (payload.suggestedTimeSeconds.getD 120))) rem
        else max 30 (min 180 (payload.suggestedTimeSeconds.getD 120)), ?_, ?_, ?_, ?_⟩
    · rcases hFU with h | h <;> subst h <;>
        simp [processLLMDecision, hA, hText]
    · intro h30
      refine ⟨?_, ?_, ?_⟩ <;> split <;> omega
    · intro h0 h30
      split <;> omega
    · intro h0
      constructor <;> split <;> omega
  · refine ⟨if 0 < max 0 (tl - e) then
        min (max 30 (min 180 (payload.suggestedTimeSeconds.getD 90))) (max 0 (tl - e))
        else max 30 (min 180 (payload.suggestedTimeSeconds.getD 90)), ?_, ?_, ?_, ?_⟩
    · rcases hFU with h | h <;> subst h <;>
        simp [geminiProcessDecision, hA, truthy, hText]
    · intro h30
      refine ⟨?_, ?_, ?_⟩ <;> split <;> omega
    · intro h0 h30
      split <;> omega
    · intro h0
      constructor <;> split <;> omega

/-- Witness for C4: the amended clamp evaluated on a concrete follow-up
payload with a 45-second remaining budget. -/
theorem C4_time_clamp_amended_witness :
    ∃ t : Int, (processLLMDecision ⟨some "follow_up", some "More?", some 120⟩
        threeQuestions 0 45).suggestedTimeSeconds = some t ∧
      (30 ≤ (45 : Int) → 30 ≤ t ∧ t ≤ 180 ∧ t ≤ 45) ∧
      ((0 : Int) < 45 → (45 : Int) < 30 → t = 45) ∧
      ((45 : Int) ≤ 0 → 30 ≤ t ∧ t ≤ 180) :=
  (C4_time_clamp_amended ⟨some "follow_up", some "More?", some 120⟩ threeQuestions
    0 45 0 600 "follow_up" rfl (Or.inl rfl) (by decide)).1

/-- A persisted response row, with the fields the follow-up-cap claim talks
about (`question_number` is 1-based, `question_type` is
`preset`/`follow_up`/`resume`). -/
structure ResponseRecord where
  questionNumber : Nat
  questionKind : String
  transcript : String
  deriving Repr, DecidableEq

/-- Modelled from the spec: the guard the claim asserts the DecisionPolicy
derives — a follow-up was already used for the current preset when some
persisted response attached to that preset (`question_number` equal to the
1-based current index) has `question_kind ≠ "preset"`.  No corresponding
computation exists in the source decision functions. -/
def followUpUsedAtSpec (responses : List ResponseRecord) (currentIndex : Nat) : Bool :=
  responses.any fun r => r.questionNumber == currentIndex + 1 && r.questionKind != "preset"

/-- Claim C2 counterexample: with a follow-up already persisted for preset
index 0 (so the claimed guard fires), a further `follow_up` payload is
still answered with a `FollowUp` decision, not the rule-4 fallback — the
decision functions take no history at all, so no override can occur. -/
theorem C2_counterexample_follow_up_cap_not_enforced :
    followUpUsedAtSpec [⟨1, "follow_up", "earlier follow-up answer"⟩] 0 = true ∧
    (processLLMDecision ⟨some "follow_up", some "And what was the outcome?", some 90⟩
        threeQuestions 0 600).action = "follow_up" ∧
    (geminiProcessDecision ⟨some "follow_up", some "And what was the outcome?", some 90⟩
        threeQuestions 0 120 720).action = "follow_up" ∧
    processLLMDecision ⟨some "follow_up", some "And what was the outcome?", some 90⟩
        threeQuestions 0 600 ≠ getNextPresetOrComplete threeQuestions 0 := by decide

/-- Claim C2 (amended): the follow-up cap lives only in the prompt —
`_build_llm_prompt` hands the backend `max_follow_ups_per_preset`
(0 when remaining < 120, else 1) and the approximation `follow_up_count =
len(history) - (idx + 1)` — while the decision-processing functions emit
the requested `FollowUp`/`ResumeProbe` whenever the payload carries that
action with non-empty question text, taking no history and never
overriding a repeated request. -/
theorem C2_follow_up_cap_prompt_only (payload : DecisionPayload) (qs : List Question)
    (idx : Nat) (rem : Int) (a : String)
    (hA : payload.action = some a) (hFU : a = "follow_up" ∨ a = "resume")
    (hText : payload.questionText.getD "" ≠ "") :
    (processLLMDecision payload qs idx rem).action = a ∧
    (processLLMDecision payload qs idx rem).questionText =
      some (payload.questionText.getD "") ∧
    (∀ remaining presets : Int, maxFollowUpsPerPreset remaining presets =
        if remaining < 120 then 0 else 1) ∧
    (∀ n k : Nat, followUpCount n k = (n : Int) - ((k : Int) + 1)) := by
  refine ⟨?_, ?_, ?_, ?_⟩
  · rcases hFU with h | h <;> subst h <;> simp [processLLMDecision, hA, hText]
  · rcases hFU with h | h <;> subst h <;> simp [processLLMDecision, hA, hText]
  · intro remaining presets
    unfold maxFollowUpsPerPreset
    split_ifs <;> omega
  · intro n k
    rfl

/-- Witness for C2: a second follow-up request at preset index 0 is
honored on the concrete fixture. -/
theorem C2_follow_up_cap_prompt_only_witness :
    (processLLMDecision ⟨some "follow_up", some "Could you elaborate?", some 90⟩
        threeQuestions 0 600).action = "follow_up" :=
  (C2_follow_up_cap_prompt_only ⟨some "follow_up", some "Could you elaborate?", some 90⟩
    threeQuestions 0 600 "follow_up" rfl (Or.inl rfl) (by decide)).1

/-- Claim C3 counterexample: the persisted cursor regresses.  A session
whose stored cursor is 3 (all three presets already served) receives a
turn with client-supplied `question_number = 1`; the decision (here the
total-failure path, identical on the others) carries
`next_index = question_number + 1 = 2`, and the route overwrites the
stored cursor 3 with 2 — the cursor is not non-decreasing. -/
theorem C3_counterexample_cursor_regression :
    (applyDecisionCursor ⟨"in_progress", 3, some 0, none, some 1, none⟩
        (determineNextStepAllFailed threeQuestions (1 - 1) 0 600) 700).currentQuestion = 2 ∧
    (2 : Nat) < 3 := by decide

/-- Claim C3 (amended): on a submit-answer turn the persisted cursor
changes only on a `preset` decision, and the written value is always
`question_number + 1` (derived from the client-supplied 1-based
`question_number`, not the stored cursor) and never exceeds
`len(preset_questions)`; consequently the cursor is non-decreasing only
under the assumption that each submitted `question_number + 1` is at least
the stored cursor. -/
theorem C3_cursor_client_derived (s : Session) (qs : List Question)
    (questionNumber : Nat) (hQ : 1 ≤ questionNumber)
    (payload : DecisionPayload) (rem e tl : Int) (now : Nat) (step : NextStep)
    (hStep : step = processLLMDecision payload qs (questionNumber - 1) rem ∨
        step = geminiProcessDecision payload qs (questionNumber - 1) e tl ∨
        step = groqProcessDecision payload qs (questionNumber - 1) e tl ∨
        step = determineNextStepAllFailed qs (questionNumber - 1) e tl) :
    ((applyDecisionCursor s step now).currentQuestion = s.currentQuestion ∨
      (step.action = "preset" ∧
        (applyDecisionCursor s step now).currentQuestion = questionNumber + 1 ∧
        questionNumber + 1 ≤ qs.length)) ∧
    (s.currentQuestion ≤ questionNumber + 1 →
      s.currentQuestion ≤ (applyDecisionCursor s step now).currentQuestion) := by
  have key : step.action = "preset" →
      step.nextIndex = some (questionNumber - 1 + 2) ∧
        questionNumber - 1 + 2 ≤ qs.length := by
    rcases hStep with h | h | h | h <;> subst h
    · exact presetIndex_processLLMDecision payload qs (questionNumber - 1) rem
    · exact presetIndex_geminiProcessDecision payload qs (questionNumber - 1) e tl
    · exact presetIndex_groqProcessDecision payload qs (questionNumber - 1) e tl
    · exact presetIndex_determineNextStepAllFailed qs (questionNumber - 1) e tl
  by_cases hp : step.action = "preset"
  · obtain ⟨hidx, hle⟩ := key hp
    have hcur : (applyDecisionCursor s step now).currentQuestion =
        questionNumber - 1 + 2 := by
      simp [applyDecisionCursor, hp, hidx]
    constructor
    · right
      exact ⟨hp, by omega, by omega⟩
    · intro hle2
      omega
  · have hcur : (applyDecisionCursor s step now).currentQuestion = s.currentQuestion := by
      simp [applyDecisionCursor, hp]
    constructor
    · left
      exact hcur
    · intro _
      omega

/-- Witness for C3: the amended cursor facts evaluated on a concrete
first-question turn. -/
theorem C3_cursor_client_derived_witness :
    ((applyDecisionCursor ⟨"in_progress", 0, some 0, none, some 1, none⟩
          (determineNextStepAllFailed threeQuestions (1 - 1) 0 600) 5).currentQuestion =
        (⟨"in_progress", 0, some 0, none, some 1, none⟩ : Session).currentQuestion ∨
      ((determineNextStepAllFailed threeQuestions (1 - 1) 0 600).action = "preset" ∧
        (applyDecisionCursor ⟨"in_progress", 0, some 0, none, some 1, none⟩
            (determineNextStepAllFailed threeQuestions (1 - 1) 0 600) 5).currentQuestion =
          1 + 1 ∧
        1 + 1 ≤ threeQuestions.length)) ∧
    ((⟨"in_progress", 0, some 0, none, some 1, none⟩ : Session).currentQuestion ≤ 1 + 1 →
      (⟨"in_progress", 0, some 0, none, some 1, none⟩ : Session).currentQuestion ≤
        (applyDecisionCursor ⟨"in_progress", 0, some 0, none, some 1, none⟩
            (determineNextStepAllFailed threeQuestions (1 - 1) 0 600) 5).currentQuestion) :=
  C3_cursor_client_derived ⟨"in_progress", 0, some 0, none, some 1, none⟩ threeQuestions 1
    (by decide) ⟨none, none, none⟩ 0 0 600 5
    (determineNextStepAllFailed threeQuestions (1 - 1) 0 600)
    (Or.inr (Or.inr (Or.inr rfl)))

/-- Claim C7 counterexample: `start_interview_session` performs no status
check, so starting a completed session (here: status `"completed"`,
`end_time = 500`) succeeds and moves it back to `in_progress` with the
cursor reset and the stale `end_time` retained — `completed` is not
terminal under the public operations. -/
theorem C7_counterexample_start_reopens_completed_session :
    startInterviewSession ⟨"completed", 3, some 0, some 500, some 1, some 500⟩ 600 =
      Except.ok ⟨"in_progress", 0, some 600, some 500, some 1, some 600⟩ ∧
    ("in_progress" : String) ≠ "completed" :=
  ⟨rfl, by decide⟩

/-- Claim C7 (amended): completion is idempotent (completing a completed
session succeeds without any further mutation), submit-response is
rejected unless the session is `in_progress`, and completion from any
other state is rejected; but `start_interview_session` has no status
guard — any session with a registered candidate, a completed one
included, is moved to `in_progress` with the cursor reset to 0 and a
fresh `start_time`. -/
theorem C7_session_state_machine_amended (s : Session) (n1 n2 : Nat) :
    (s.status = "completed" → completeSession s n1 = Except.ok s) ∧
    (s.status = "in_progress" →
      completeSession s n1 =
        Except.ok { s with status := "completed", endTime := some n1, updatedAt := some n1 } ∧
      completeSession { s with status := "completed", endTime := some n1, updatedAt := some n1 } n2 =
        Except.ok { s with status := "completed", endTime := some n1, updatedAt := some n1 }) ∧
    (s.status ≠ "in_progress" →
      submitResponseGuard s = Except.error "Session is not in progress") ∧
    (s.status ≠ "completed" → s.status ≠ "in_progress" →
      completeSession s n1 =
        Except.error "Session cannot be completed from this state") ∧
    (s.candidateId.isSome →
      startInterviewSession s n1 =
        Except.ok { s with status := "in_progress", startTime := some n1, currentQuestion := 0, updatedAt := some n1 }) := by
  refine ⟨?_, ?_, ?_, ?_, ?_⟩
  · intro h
    simp [completeSession, h]
  · intro h
    constructor
    · simp [completeSession, h]
    · simp [completeSession]
  · intro h
    simp [submitResponseGuard, h]
  · intro h1 h2
    simp [completeSession, h1, h2]
  · intro h
    obtain ⟨c, hc⟩ := Option.isSome_iff_exists.mp h
    simp [startInterviewSession, hc]

/-- Witness for C7: completing an in-progress session on concrete data,
via the amended theorem. -/
theorem C7_session_state_machine_amended_witness :
    completeSession ⟨"in_progress", 2, some 0, none, some 1, some 0⟩ 100 =
      Except.ok ⟨"completed", 2, some 0, some 100, some 1, some 100⟩ :=
  ((C7_session_state_machine_amended ⟨"in_progress", 2, some 0, none, some 1, some 0⟩
    100 200).2.1 rfl).1

/-- Claim C8 (confirmed): with `remaining = max(0, total - elapsed)`, the
urgency string of the source carries the tier the specification names
(CRITICAL below 60, URGENT below 120, LIMITED below 180, else NORMAL),
`max_follow_ups_per_preset` collapses to 0 when `remaining < 120` and 1
otherwise (never exceeding 1), and `has_time_for_followup` holds exactly
when `remaining > presets_remaining * 60 + 30` — all pure functions of
`(elapsed, total, presets_remaining)`. -/
theorem C8_time_budget_computation (elapsed total presets : Int) :
    ((urgencyLabel (urgencyTierSpec (remainingSecondsOf elapsed total))).data.isPrefixOf
        (timeUrgencyMsg (remainingSecondsOf elapsed total)).data = true) ∧
    maxFollowUpsPerPreset (remainingSecondsOf elapsed total) presets =
      (if remainingSecondsOf elapsed total < 120 then 0 else 1) ∧
    maxFollowUpsPerPreset (remainingSecondsOf elapsed total) presets ≤ 1 ∧
    (hasTimeForFollowup (remainingSecondsOf elapsed total) presets = true ↔
      remainingSecondsOf elapsed total > presets * 60 + 30) ∧
    remainingSecondsOf elapsed total = max 0 (total - elapsed) := by
  refine ⟨?_, ?_, ?_, ?_, rfl⟩
  · unfold timeUrgencyMsg urgencyTierSpec urgencyLabel
    split_ifs <;> decide
  · unfold maxFollowUpsPerPreset
    split_ifs <;> omega
  · unfold maxFollowUpsPerPreset
    split_ifs <;> omega
  · simp [hasTimeForFollowup]

/-- Every question parsed from the Gemini generation payload carries
provenance `"ai"`. -/
theorem generatedBy_parseGeminiQuestions (items : List RawQuestionData) :
    ∀ q ∈ parseGeminiQuestions items, q.generatedBy = "ai" := by
  intro q hq
  rw [parseGeminiQuestions, List.mem_filterMap] at hq
  obtain ⟨r, -, heq⟩ := hq
  rcases hr : r.text with - | t
  · rw [hr] at heq
    simp at heq
  · rcases hg : r.tags with - | tags
    · rw [hr, hg] at heq
      simp at heq
    · rw [hr, hg] at heq
      injection heq with h2
      subst h2
      rfl

/-- Every question parsed from the Groq generation payload carries
provenance `"ai"`. -/
theorem generatedBy_parseGroqQuestions (items : List RawQuestionData)
    (areas : List String) :
    ∀ q ∈ parseGroqQuestions items areas, q.generatedBy = "ai" := by
  intro q hq
  rw [parseGroqQuestions, List.mem_filterMap] at hq
  obtain ⟨r, -, heq⟩ := hq
  rcases hr : r.text with - | t
  · rw [hr] at heq
    simp at heq
  · rw [hr] at heq
    injection heq with h2
    subst h2
    rfl

/-- Every question produced by the template fallback carries provenance
`"template"` or `"fallback"`. -/
theorem generatedBy_generateTemplateQuestions (areas : List String)
    (difficulty : String) (n : Nat) :
    ∀ q ∈ generateTemplateQuestions areas difficulty n,
      q.generatedBy = "template" ∨ q.generatedBy = "fallback" := by
  intro q hq
  unfold generateTemplateQuestions at hq
  dsimp only at hq
  have hq' := List.mem_of_mem_take hq
  have fromTemplate : ∀ m : Nat,
      q ∈ (areas.flatMap fun area =>
        (generateFocusAreaQuestions area difficulty m).map
          fun t => (⟨t, [area], "template", some 120⟩ : Question)) →
      q.generatedBy = "template" := by
    intro m hmem
    obtain ⟨area, -, hmem2⟩ := List.mem_flatMap.mp hmem
    obtain ⟨t, -, rfl⟩ := List.mem_map.mp hmem2
    rfl
  have fromFallback : ∀ m : Nat, q ∈ generateFallbackQuestions areas m →
      q.generatedBy = "fallback" := by
    intro m hmem
    unfold generateFallbackQuestions at hmem
    obtain ⟨t, -, rfl⟩ := List.mem_map.mp hmem
    rfl
  split at hq' <;> split at hq'
  · rcases List.mem_append.mp hq' with h | h
    · exact Or.inl (fromTemplate _ (List.mem_of_mem_take h))
    · exact Or.inr (fromFallback _ h)
  · exact Or.inl (fromTemplate _ (List.mem_of_mem_take hq'))
  · rcases List.mem_append.mp hq' with h | h
    · exact Or.inl (fromTemplate _ (List.mem_of_mem_take h))
    · exact Or.inr (fromFallback _ h)
  · exact Or.inl (fromTemplate _ (List.mem_of_mem_take hq'))

/-- The template fallback never returns more than the requested count. -/
theorem length_generateTemplateQuestions (areas : List String)
    (difficulty : String) (n : Nat) :
    (generateTemplateQuestions areas difficulty n).length ≤ n :=
  List.length_take_le n _

/-- Function `generate_questions` never returns more than the requested count, on
any provider outcome. -/
theorem length_generateQuestions (gem groq : Option (List RawQuestionData))
    (areas : List String) (difficulty : String) (n : Nat) :
    (generateQuestions gem groq areas difficulty n).length ≤ n := by
  cases gem with
  | some items =>
    by_cases h1 : parseGeminiQuestions items = []
    · cases groq with
      | some items2 =>
        by_cases h2 : parseGroqQuestions items2 areas = []
        · simp only [generateQuestions, h1, if_true, h2]
          exact length_generateTemplateQuestions areas difficulty n
        · simp only [generateQuestions, h1, if_true, h2, if_false]
          exact List.length_take_le n _
      | none =>
        simp only [generateQuestions, h1, if_true]
        exact length_generateTemplateQuestions areas difficulty n
    · simp only [generateQuestions, h1, if_false]
      exact List.length_take_le n _
  | none =>
    cases groq with
    | some items2 =>
      by_cases h2 : parseGroqQuestions items2 areas = []
      · simp only [generateQuestions, h2, if_true]
        exact length_generateTemplateQuestions areas difficulty n
      · simp only [generateQuestions, h2, if_false]
        exact List.length_take_le n _
    | none =>
      simp only [generateQuestions]
      exact length_generateTemplateQuestions areas difficulty n

/-- Every question returned by `generate_questions` carries one of the
three provenance tags. -/
theorem generatedBy_generateQuestions (gem groq : Option (List RawQuestionData))
    (areas : List String) (difficulty : String) (n : Nat) :
    ∀ q ∈ generateQuestions gem groq areas difficulty n,
      q.generatedBy = "ai" ∨ q.generatedBy = "template" ∨
        q.generatedBy = "fallback" := by
  intro q hq
  have fromTemplate : q ∈ generateTemplateQuestions areas difficulty n →
      q.generatedBy = "ai" ∨ q.generatedBy = "template" ∨ q.generatedBy = "fallback" :=
    fun h => Or.inr (generatedBy_generateTemplateQuestions areas difficulty n q h)
  cases gem with
  | some items =>
    by_cases h1 : parseGeminiQuestions items = []
    · cases groq with
      | some items2 =>
        by_cases h2 : parseGroqQuestions items2 areas = []
        · simp only [generateQuestions, h1, if_true, h2] at hq
          exact fromTemplate hq
        · simp only [generateQuestions, h1, if_true, h2, if_false] at hq
          exact Or.inl (generatedBy_parseGroqQuestions items2 areas q
            (List.mem_of_mem_take hq))
      | none =>
        simp only [generateQuestions, h1, if_true] at hq
        exact fromTemplate hq
    · simp only [generateQuestions, h1, if_false] at hq
      exact Or.inl (generatedBy_parseGeminiQuestions items q
        (List.mem_of_mem_take hq))
  | none =>
    cases groq with
    | some items2 =>
      by_cases h2 : parseGroqQuestions items2 areas = []
      · simp only [generateQuestions, h2, if_true] at hq
        exact fromTemplate hq
      · simp only [generateQuestions, h2, if_false] at hq
        exact Or.inl (generatedBy_parseGroqQuestions items2 areas q
          (List.mem_of_mem_take hq))
    | none =>
      simp only [generateQuestions] at hq
      exact fromTemplate hq

/-- Claim C9 counterexample: the count guarantee fails in two ways.  When
the Gemini call yields two usable questions and five were requested,
`generate_questions` returns two (no template top-up happens after a
non-empty AI result); and on total provider failure with an empty focus
list, the template path yields nothing and the five generic fallback texts
cannot fill a request for ten. -/
theorem C9_counterexample_count_shortfall :
    (generateQuestions
        (some [⟨some "Tell me about your Python background.", some ["technical"], some 90⟩,
          ⟨some "Describe a REST API you built.", some ["technical"], none⟩])
        none ["technical"] "easy" 5).length = 2 ∧
    (2 : Nat) ≠ 5 ∧
    (generateQuestions none none [] "easy" 10).length = 5 ∧
    (5 : Nat) ≠ 10 := by decide

/-- Claim C9 (amended): `generate_questions` returns at most N questions,
each tagged with provenance `ai`, `template` or `fallback`; a provider
whose parsed list is non-empty wins outright and its list is truncated to
N with no template top-up (so k usable AI questions, 1 ≤ k < N, yield
exactly k); templates and then the five generic fallback texts are used
only when both providers yield nothing, and that path can also return
fewer than N once its pools are exhausted. -/
theorem C9_generate_questions_amended (gem groq : Option (List RawQuestionData))
    (areas : List String) (difficulty : String) (n : Nat)
    (items : List RawQuestionData) (hGem : gem = some items)
    (hNe : parseGeminiQuestions items ≠ []) :
    generateQuestions gem groq areas difficulty n =
      (parseGeminiQuestions items).take n ∧
    (generateQuestions gem groq areas difficulty n).length =
      min n (parseGeminiQuestions items).length ∧
    (∀ gem' groq' : Option (List RawQuestionData),
      (generateQuestions gem' groq' areas difficulty n).length ≤ n) ∧
    (∀ gem' groq' : Option (List RawQuestionData),
      ∀ q ∈ generateQuestions gem' groq' areas difficulty n,
        q.generatedBy = "ai" ∨ q.generatedBy = "template" ∨
          q.generatedBy = "fallback") := by
  have h1 : generateQuestions gem groq areas difficulty n =
      (parseGeminiQuestions items).take n := by
    simp only [hGem, generateQuestions, hNe, if_false]
  refine ⟨h1, ?_, ?_, ?_⟩
  · rw [h1]
    exact List.length_take n _
  · intro gem' groq'
    exact length_generateQuestions gem' groq' areas difficulty n
  · intro gem' groq'
    exact generatedBy_generateQuestions gem' groq' areas difficulty n

/-- Witness for C9: the amended count facts on a concrete two-question
Gemini result with five requested. -/
theorem C9_generate_questions_amended_witness :
    generateQuestions
        (some [⟨some "What drew you to backend work?", some ["technical"], some 90⟩,
          ⟨some "Walk me through a recent project.", some ["technical"], none⟩])
        none ["technical"] "easy" 5 =
      (parseGeminiQuestions
        [⟨some "What drew you to backend work?", some ["technical"], some 90⟩,
          ⟨some "Walk me through a recent project.", some ["technical"], none⟩]).take 5 :=
  (C9_generate_questions_amended
    (some [⟨some "What drew you to backend work?", some ["technical"], some 90⟩,
      ⟨some "Walk me through a recent project.", some ["technical"], none⟩])
    none ["technical"] "easy" 5
    [⟨some "What drew you to backend work?", some ["technical"], some 90⟩,
      ⟨some "Walk me through a recent project.", some ["technical"], none⟩]
    rfl (by decide)).1

/-- Claim C10 (confirmed): the transcript stored by `submit_response` is
always one of three non-null strings — the stripped client live transcript
(used exactly when it is truthy with stripped length above 5), the raw
server transcription text (used when no qualifying live transcript exists,
no audio exception occurred, and it is non-empty, does not start with `[`,
and has stripped length above 5), or the literal placeholder
`"[No response recorded]"`; an exception during audio handling therefore
never aborts the turn. -/
theorem C10_transcript_never_null (live : Option String) (serverText : String)
    (audioError : Bool) :
    (∃ s, live = some s ∧ s ≠ "" ∧ 5 < s.trim.length ∧
        computeTranscript live serverText audioError = s.trim) ∨
    (audioError = false ∧ serverText ≠ "" ∧ ¬(serverText.startsWith "[") ∧
        5 < serverText.trim.length ∧
        computeTranscript live serverText audioError = serverText) ∨
    computeTranscript live serverText audioError = "[No response recorded]" := by
  cases live with
  | none =>
    cases audioError with
    | true =>
        right; right
        rfl
    | false =>
        by_cases h : serverText ≠ "" ∧ ¬(serverText.startsWith "[") ∧
            5 < serverText.trim.length
        · right; left
          exact ⟨rfl, h.1, h.2.1, h.2.2, by simp [computeTranscript, h]⟩
        · right; right
          simp [computeTranscript]
          intro h1 h2
          rcases Decidable.not_and_iff_or_not.mp h with h' | h'
          · exact absurd h1 h'
          · rcases Decidable.not_and_iff_or_not.mp h' with h'' | h''
            · simp [Decidable.not_not.mp h''] at h2
            · omega
  | some s =>
    by_cases hs : s ≠ "" ∧ 5 < s.trim.length
    · left
      refine ⟨s, rfl, hs.1, hs.2, ?_⟩
      cases audioError <;> simp [computeTranscript, hs]
    · cases audioError with
      | true =>
          right; right
          simp [computeTranscript, hs]
      | false =>
          by_cases h : serverText ≠ "" ∧ ¬(serverText.startsWith "[") ∧
              5 < serverText.trim.length
          · right; left
            exact ⟨rfl, h.1, h.2.1, h.2.2, by simp [computeTranscript, hs, h]⟩
          · right; right
            simp [computeTranscript, hs]
            intro h1 h2
            rcases Decidable.not_and_iff_or_not.mp h with h' | h'
            · exact absurd h1 h'
            · rcases Decidable.not_and_iff_or_not.mp h' with h'' | h''
              · simp [Decidable.not_not.mp h''] at h2
              · omega

end SmartInterview
